import Mathlib

/-!
Verification of the walmart-x1 shopping-assistant backend core
(cart manager, review-session manager, curation engine, plan dispatcher,
session command interpreter, checkout coordinator).

The Python services are shallowly embedded as pure Lean functions.
External collaborators (Redis, Supabase, the LLM planner / extractor /
allocator / action classifier, vector search) are modelled as explicit
inputs: each external call's outcome is a parameter of the embedded
function, and store state is passed and returned explicitly.  Monetary
values and similarity scores are modelled as rationals, quantities as
integers; Python dict keys that may be absent are modelled with `Option`.
-/

/-- A product / candidate-item dictionary as it flows through the system
(search results, curation pool entries, review-session items).  Mirrors the
Python dicts, whose keys may be absent: `dict.get` accesses are `Option`
reads.  `source` is the provenance tag ("Reorder", "Recommendation", …). -/
structure Item where
  id : Option Nat := none
  name : Option String := none
  price : Option ℚ := none
  image_url : Option String := none
  quantity : Option Int := none
  source : Option String := none
  similarity : Option ℚ := none
deriving DecidableEq, Repr

/-- An `{id, quantity}` decision returned by the external budget allocator
(`llm_decisions` in `budget_service.curate_cart_with_llm`).  `id` models
`decision.get("id")`.  `quantity = none` models an absent `"quantity"` key,
which the source defaults to 1 via `decision.get("quantity", 1)`. -/
structure Decision where
  id : Option Nat := none
  quantity : Option Int := none
deriving DecidableEq, Repr

/-- `budget_service.py` line 37: `product_lookup = {p["id"]: p for p in products}`,
queried with `product_id in product_lookup` / `product_lookup[product_id]`.
A Python dict comprehension keeps the last entry for a duplicated key. -/
def product_lookup (products : List Item) (key : Option Nat) : Option Item :=
  products.foldl (fun acc p => if p.id = key then some p else acc) none

/-- `budget_service.py` lines 71-78: enrich one allocator decision with the
stored product snapshot, or drop it when its id is not in the lookup. -/
def enrichDecision (products : List Item) (d : Decision) : Option Item :=
  match product_lookup products d.id with
  | some p => some { p with quantity := some (d.quantity.getD 1) }
  | none => none

/-- `p.get('similarity', 0)`-style key used by the no-budget sort
(`budget_service.py` line 28): a missing similarity counts as 0. -/
def simOrZero (p : Item) : ℚ := p.similarity.getD 0

/-- The comparison performed by
`sorted(products, key=lambda p: p.get('similarity', 0), reverse=True)`:
`a` may come before `b` iff `a`'s similarity is ≥ `b`'s.  Python's sort is
stable, as is `List.mergeSort`. -/
def descBySim (a b : Item) : Bool := simOrZero b ≤ simOrZero a

/-- `budget_service.py` line 31: `p['quantity'] = 1`. -/
def setQuantityOne (p : Item) : Item := { p with quantity := some 1 }

/-- `budget_service.curate_cart_with_llm`, embedded.  `llmDecisions` is the
outcome of the external allocation call made on the budget path: `none`
models the `except` branch (HTTP failure, or no parseable JSON array in the
reply), `some ds` a parsed decision list.  The user-query string only feeds
the LLM prompt, so it does not appear here. -/
def curate_cart_with_llm (products : List Item) (budget : Option ℚ)
    (llmDecisions : Option (List Decision)) : List Item :=
  if products.isEmpty then []
  else
    match budget with
    | none => ((products.mergeSort descBySim).take 7).map setQuantityOne
    | some _ =>
      match llmDecisions with
      | none => []
      | some decisions => decisions.filterMap (enrichDecision products)

/-! ### Cart Manager (`cart_service.py`)

The Redis cart is a per-user hash (`temp_cart:{user_id}`): field = entry id,
value = the serialized cart entry, with a whole-record TTL.  A record is
modelled as its field list (in Redis/Python insertion order) plus the TTL
currently set on the key; Redis deletes a hash key once its last field is
removed. -/

/-- One serialized cart line entry (`cart_item_data` in
`add_item_to_temp_cart`): all keys are always written, but the values
copied out of the product snapshot may be `None`. -/
structure CartEntry where
  item_id : String
  product_id : Option Nat := none
  name : Option String := none
  price : Option ℚ := none
  image_url : Option String := none
  quantity : Option Int := none
deriving DecidableEq, Repr

/-- `TEMP_CART_EXPIRATION_SECONDS = 3600` (`cart_service.py` line 23). -/
def TEMP_CART_EXPIRATION_SECONDS : Nat := 3600

/-- The user's cart record: Redis hash fields plus the TTL in force. -/
structure CartRecord where
  fields : List (String × CartEntry)
  ttlSeconds : Nat
deriving DecidableEq, Repr

/-- Redis `HSET`: overwrite the field when present, else append it. -/
def hsetField : List (String × CartEntry) → String → CartEntry → List (String × CartEntry)
  | [], key, v => [(key, v)]
  | (k', v') :: rest, key, v =>
    if k' = key then (key, v) :: rest else (k', v') :: hsetField rest key v

/-- `cart_service.add_item_to_temp_cart`, embedded on one user's cart
record.  `item_id` stands for the freshly generated `uuid4` string; the
entry is built from the given product snapshot without re-fetching.  The
`expire` call after `hset` sets the record TTL to 1 hour. -/
def add_item_to_temp_cart (record : Option CartRecord) (item_id : String)
    (product : Item) (quantity : Int) : CartRecord × CartEntry :=
  let cart_item_data : CartEntry :=
    { item_id := item_id, product_id := product.id, name := product.name,
      price := product.price, image_url := product.image_url,
      quantity := some quantity }
  let fields₀ := match record with | none => [] | some r => r.fields
  ({ fields := hsetField fields₀ item_id cart_item_data,
     ttlSeconds := TEMP_CART_EXPIRATION_SECONDS }, cart_item_data)

/-- `cart_service.remove_item_from_temp_cart`, embedded.  It only issues
`HDEL` (returning the number of deleted fields); no `expire` call is made.
Redis removes the whole key when the hash loses its last field. -/
def remove_item_from_temp_cart (record : Option CartRecord) (item_id : String) :
    Option CartRecord × Nat :=
  match record with
  | none => (none, 0)
  | some r =>
    let removed := if (r.fields.find? (fun f => f.1 = item_id)).isSome then 1 else 0
    let fields := r.fields.filter (fun f => f.1 ≠ item_id)
    (if fields.isEmpty then none else some { r with fields := fields }, removed)

/-- `cart_service.get_temp_cart`, embedded: all current entries. -/
def get_temp_cart (record : Option CartRecord) : List CartEntry :=
  match record with
  | none => []
  | some r => r.fields.map (·.2)

/-! ### Review Session Manager (`review_service.py`)

The session store maps a user id to the session value at key
`review_session:{user_id}`; `SETEX` is a whole-value overwrite, and the
JSON round-trip is lossless, so a session is just the saved item list. -/

/-- The ephemeral review-session store, keyed by user id. -/
def ReviewStore : Type := String → Option (List Item)

/-- `review_service.create_review_session`: full-record overwrite of the
user's session (it also resets the 30-minute TTL, not modelled as time). -/
def create_review_session (store : ReviewStore) (user_id : String)
    (items : List Item) : ReviewStore :=
  fun u => if u = user_id then some items else store u

/-- `review_service.get_review_session`: whole-record read. -/
def get_review_session (store : ReviewStore) (user_id : String) : Option (List Item) :=
  store user_id

/-- `review_service.clear_review_session`: delete the record. -/
def clear_review_session (store : ReviewStore) (user_id : String) : ReviewStore :=
  fun u => if u = user_id then none else store u

/-- A mutating review-store operation, for stating frame properties. -/
inductive ReviewOp where
  | save (user_id : String) (items : List Item)
  | clear (user_id : String)

/-- Run one review-store operation. -/
def applyReviewOp (store : ReviewStore) : ReviewOp → ReviewStore
  | .save u items => create_review_session store u items
  | .clear u => clear_review_session store u

/-- Run a sequence of review-store operations, oldest first. -/
def applyReviewOps (store : ReviewStore) (ops : List ReviewOp) : ReviewStore :=
  ops.foldl applyReviewOp store

/-- Does the operation target user `u`'s session? -/
def targetsUser (u : String) : ReviewOp → Bool
  | .save v _ => v = u
  | .clear v => v = u

/-! ### Checkout Coordinator (`order_service.create_order_from_cart`)

The two Supabase inserts are external durable writes; whether each insert
call succeeds (`response.data` non-empty) is an explicit input, as is the
order id the database generates.  A Python exception aborts the function
before any later effect. -/

/-- One row inserted into `order_items` (`order_service.py` lines 48-56). -/
structure OrderItemRow where
  order_id : Nat
  product_id : Option Nat
  quantity : Option Int
  price_at_purchase : Option ℚ
deriving DecidableEq, Repr

/-- `item['price'] * item['quantity']` for one cart entry: `none` models the
`TypeError` Python raises when either value is `None`. -/
def entryAmount (e : CartEntry) : Option ℚ :=
  match e.price, e.quantity with
  | some p, some q => some (p * (q : ℚ))
  | _, _ => none

/-- `quantity * price_at_purchase` for one order line item. -/
def rowAmount (row : OrderItemRow) : Option ℚ :=
  match row.quantity, row.price_at_purchase with
  | some q, some p => some ((q : ℚ) * p)
  | _, _ => none

/-- Python `sum` over optional summands: any `None` summand raises. -/
def sumAmounts : List (Option ℚ) → Option ℚ
  | [] => some 0
  | none :: _ => none
  | some a :: rest => (sumAmounts rest).map (a + ·)

/-- `total_amount = sum(item['price'] * item['quantity'] for item in cart_items)`
(`order_service.py` line 28). -/
def cartTotal (cart_items : List CartEntry) : Option ℚ :=
  sumAmounts (cart_items.map entryAmount)

/-- The order line built from one cart entry (`order_service.py` lines 48-56). -/
def toOrderItemRow (order_id : Nat) (item : CartEntry) : OrderItemRow :=
  { order_id := order_id, product_id := item.product_id,
    quantity := item.quantity, price_at_purchase := item.price }

/-- How `create_order_from_cart` can fail. -/
inductive CheckoutError where
  /-- `ValueError("Cannot create an order from an empty cart.")` -/
  | emptyCart
  /-- `TypeError` from summing a `None` price or quantity. -/
  | typeError
  /-- `Exception("Failed to create order record.")` -/
  | orderInsertFailed
  /-- `Exception("Failed to insert order items.")` -/
  | itemsInsertFailed
deriving DecidableEq, Repr

/-- Observable outcome of one `create_order_from_cart` call: the returned
value (order id and total) or the exception raised, plus each durable
effect that took place. -/
structure CheckoutResult where
  outcome : Except CheckoutError (Nat × ℚ)
  /-- The `orders` row written, if any: `(user_id, total_amount)`. -/
  orderInserted : Option (String × ℚ)
  /-- The `order_items` rows written, if any. -/
  itemsInserted : Option (List OrderItemRow)
  /-- Whether the Redis cart record was deleted. -/
  cartCleared : Bool
deriving Repr

/-- `order_service.create_order_from_cart`, embedded.  `cart_items` is the
cart read from Redis at entry; `orderInsertOk` / `itemsInsertOk` tell
whether each insert succeeds (a failed insert writes nothing and the raised
exception aborts everything after it); `newOrderId` is the id the database
assigns to the order row. -/
def create_order_from_cart (user_id : String) (cart_items : List CartEntry)
    (orderInsertOk : Bool) (newOrderId : Nat) (itemsInsertOk : Bool) : CheckoutResult :=
  if cart_items.isEmpty then
    { outcome := .error .emptyCart, orderInserted := none,
      itemsInserted := none, cartCleared := false }
  else
    match cartTotal cart_items with
    | none =>
      { outcome := .error .typeError, orderInserted := none,
        itemsInserted := none, cartCleared := false }
    | some total_amount =>
      if !orderInsertOk then
        { outcome := .error .orderInsertFailed, orderInserted := none,
          itemsInserted := none, cartCleared := false }
      else
        let order_items_to_insert := cart_items.map (toOrderItemRow newOrderId)
        if !itemsInsertOk then
          { outcome := .error .itemsInsertFailed,
            orderInserted := some (user_id, total_amount),
            itemsInserted := none, cartCleared := false }
        else
          { outcome := .ok (newOrderId, total_amount),
            orderInserted := some (user_id, total_amount),
            itemsInserted := some order_items_to_insert, cartCleared := true }

/-! ### Plan Dispatcher and Session Command Interpreter (`main.py`, `llm_service.py`)

FastAPI turns a raised `HTTPException` into the response; the embedded
endpoints return `Except ApiError _` instead.  Every external LLM /
database call is an explicit outcome parameter. -/

/-- An `HTTPException(status_code, detail)` raised by the endpoints. -/
inductive ApiError where
  /-- status 400 -/
  | badRequest (detail : String)
  /-- status 404 -/
  | notFound (detail : String)
  /-- status 503, raised only by `extract_product_info_from_query` -/
  | externalServiceFailure (detail : String)
  /-- status 500 -/
  | internalError (detail : String)
deriving DecidableEq, Repr

/-- The HTTP status code each error kind is transported with. -/
def statusCode : ApiError → Nat
  | .badRequest _ => 400
  | .notFound _ => 404
  | .externalServiceFailure _ => 503
  | .internalError _ => 500

/-- The planner reply used by `process_user_query` (`get_ai_plan`'s parsed
JSON): only these four keys are read downstream. -/
structure Plan where
  intent : Option String := none
  themes : List String := []
  budget : Option ℚ := none
  query_for_user : Option String := none

/-- Outcome of the external planner call inside `get_ai_plan`: either a
parsed JSON plan, or any exception (HTTP error, timeout, no parseable JSON
object in the reply). -/
inductive PlannerOutcome where
  | ok (plan : Plan)
  | failure (msg : String)

/-- `llm_service.get_ai_plan`, embedded: on any failure it swallows the
exception and returns `{"intent": "error", "message": str(e)}` (the
`message` key is never read by the caller, so it is not modelled). -/
def get_ai_plan : PlannerOutcome → Plan
  | .ok plan => plan
  | .failure _ => { intent := some "error" }

/-- The `products(name, image_url)` join payload on an order-items row;
`original_product_data['name']` is accessed unconditionally, so `name` is
required. -/
structure HistProduct where
  name : String
  image_url : Option String := none
deriving DecidableEq, Repr

/-- One row of the user's most recent order as returned by the
`order_items` query in `get_last_order_for_user`. -/
structure HistoryItem where
  product_id : Option Nat := none
  quantity : Option Int := none
  products : Option HistProduct := none
deriving DecidableEq, Repr

/-- State of the order-history read: the user has no orders, the latest
order was found with the given item rows, or the database read raised. -/
inductive HistoryOutcome where
  | noOrders
  | order (items : List HistoryItem)
  | readError (msg : String)

/-- `order_service.get_last_order_for_user`, embedded: `None` when there is
no prior order, the item rows of the latest order otherwise — and `None`
again when the read raises, because the `except` branch returns `None`. -/
def get_last_order_for_user : HistoryOutcome → Option (List HistoryItem)
  | .noOrders => none
  | .order items => some items
  | .readError _ => none

/-- A product line extracted by the LLM (`api_models.ExtractedProduct`). -/
structure ExtractedProduct where
  id : Option Nat := none
  name : String
  quantity : Int := 1
  preferences : List String := []
deriving DecidableEq, Repr

/-- The validated extractor reply (`api_models.LLMResponse`). -/
structure LLMResponse where
  products : List ExtractedProduct
  intent : String
deriving DecidableEq, Repr

/-- Outcome of the external extractor call inside
`extract_product_info_from_query`. -/
inductive ExtractorOutcome where
  /-- a reply that parsed and validated -/
  | ok (r : LLMResponse)
  /-- `requests` HTTPError / RequestException → `HTTPException(503, ...)` -/
  | httpError (detail : String)
  /-- JSON decode or schema validation failure → `HTTPException(500, ...)` -/
  | parseError (detail : String)

/-- `llm_service.extract_product_info_from_query`, embedded: unlike
`get_ai_plan`, this one re-raises failures as `HTTPException`s — 503 for
transport errors, 500 for parse/validation errors. -/
def extract_product_info_from_query : ExtractorOutcome → Except ApiError LLMResponse
  | .ok r => .ok r
  | .httpError detail => .error (.externalServiceFailure detail)
  | .parseError detail => .error (.internalError detail)

/-- The vector-search oracle `search_products_hybrid(query_text,
match_threshold, match_count)`. -/
def SearchFn : Type := String → ℚ → Nat → List Item

/-- `main.py` reorder branch (lines 79-92): for each history row carrying a
`products` join, emit the original product tagged `Reorder` with its past
quantity, then the first similar product with a different id, tagged
`Recommendation` with quantity 1. -/
def reorderReviewList (search : SearchFn) (histItems : List HistoryItem) : List Item :=
  histItems.foldl
    (fun review_list item =>
      match item.products with
      | none => review_list
      | some hp =>
        let original : Item :=
          { id := none, name := some hp.name, price := none,
            image_url := hp.image_url, quantity := item.quantity,
            source := some "Reorder" }
        let review_list := review_list ++ [original]
        match (search hp.name (1/2) 5).find? (fun alt => alt.id != item.product_id) with
        | some alt =>
          review_list ++ [{ alt with quantity := some 1, source := some "Recommendation" }]
        | none => review_list)
    []

/-- Python-dict insertion used for `all_matched_products[product['id']] = product`:
first insertion fixes the key's position, a later insertion overwrites the
value in place. -/
def dictInsert (m : List (Option Nat × Item)) (key : Option Nat) (v : Item) :
    List (Option Nat × Item) :=
  if m.any (fun kv => kv.1 == key) then
    m.map (fun kv => if kv.1 == key then (key, v) else kv)
  else m ++ [(key, v)]

/-- `main.py` create_event branch (lines 100-105): union the per-theme
search results by product id (threshold 0.35, count 5), keeping dict
insertion order. -/
def buildThemePool (search : SearchFn) (themes : List String) : List Item :=
  (themes.foldl
    (fun m theme =>
      (search theme (35/100) 5).foldl (fun m' product => dictInsert m' product.id product) m)
    []).map (·.2)

/-- `f"{' '.join(product_query.preferences)} {product_query.name}".strip()`
(`main.py` line 139). -/
def searchPhrase (p : ExtractedProduct) : String :=
  (String.intercalate " " p.preferences ++ " " ++ p.name).trim

/-- `main.py` add_to_cart branch loop (lines 138-144): the single best match
(threshold 0.4) for each extracted line, paired with the requested
quantity; lines with no match are skipped. -/
def directAddItems (search : SearchFn) (products : List ExtractedProduct) :
    List (Item × Int) :=
  products.foldl
    (fun acc product_query =>
      match search (searchPhrase product_query) (2/5) 1 with
      | [] => acc
      | top_product :: _ => acc ++ [(top_product, product_query.quantity)])
    []

/-- The incoming request body (`api_models.QueryRequest`). -/
structure QueryRequest where
  query : String
  user_id : String
  session_id : String
  ai_mode : Option String := none

/-- Observable outcome of one `/process_query` call: the HTTP reply (or
error), the review-session list written (if any), and the `(product,
quantity)` pairs added to the cart (if any). -/
structure DispatchResult where
  response : Except ApiError String
  sessionWrite : Option (List Item) := none
  cartAdds : List (Item × Int) := []

/-- `main.process_user_query`, embedded.  External outcomes are inputs:
`plannerOut` for `get_ai_plan`'s call, `histOut` for the order-history
read, `search` for `search_products_hybrid`, `extractorOut` for
`extract_product_info_from_query`'s call, and `allocOut` for the budget
allocator call inside `curate_cart_with_llm`. -/
def process_user_query (req : QueryRequest) (plannerOut : PlannerOutcome)
    (histOut : HistoryOutcome) (search : SearchFn)
    (extractorOut : ExtractorOutcome) (allocOut : Option (List Decision)) :
    DispatchResult :=
  if req.ai_mode = some "build_cart" ∨ req.ai_mode = some "recommend" then
    let plan := get_ai_plan plannerOut
    let reviewListE : Except ApiError (List Item) :=
      if plan.intent = some "reorder" then
        match get_last_order_for_user histOut with
        | none => .error (.notFound "You have no previous orders to rebuild from!")
        | some last_order_items =>
          if last_order_items.isEmpty then
            .error (.notFound "You have no previous orders to rebuild from!")
          else
            .ok (reorderReviewList search last_order_items)
      else if plan.intent = some "create_event" then
        if plan.themes.isEmpty then
          .error (.badRequest "The AI could not determine a theme.")
        else
          let unique_product_list := buildThemePool search plan.themes
          if unique_product_list.isEmpty then
            .error (.notFound "Could not find items matching themes.")
          else
            .ok (curate_cart_with_llm unique_product_list plan.budget allocOut)
      else
        .error (.badRequest "The AI could not understand your request.")
    match reviewListE with
    | .error e => { response := .error e }
    | .ok review_list =>
      if review_list.isEmpty then
        { response := .error (.notFound "The AI could not generate a list for that request.") }
      else
        { response := .ok (plan.query_for_user.getD "A new list is ready for your review!"),
          sessionWrite := some review_list }
  else if req.ai_mode = some "add_to_cart" then
    match extract_product_info_from_query extractorOut with
    | .error e => { response := .error e }
    | .ok llm_result =>
      if llm_result.intent ≠ "add_to_cart" then
        { response := .error (.badRequest "In this mode, I can only add items.") }
      else if llm_result.products.isEmpty then
        { response := .error (.badRequest "I couldn\x27t find any products in your request.") }
      else
        let newly_added_items := directAddItems search llm_result.products
        if newly_added_items.isEmpty then
          { response := .error (.notFound "Sorry, we couldn\x27t find any of the products you asked for.") }
        else
          { response := .ok ("Added " ++ toString newly_added_items.length ++ " item(s) to your cart."),
            cartAdds := newly_added_items }
  else
    { response := .error (.badRequest ("Unsupported AI mode: " ++
        (match req.ai_mode with | some m => m | none => "None"))) }

/-- The structured action `get_list_modification_action` hands back to the
`/modify_review_list` endpoint.  The source branches on the stringly-typed
`action_data.get("action")`; every unmatched value — including the
`"error"` tag the classifier returns on its own failure — falls through to
the default reply, modelled by `unrecognized`. -/
inductive ModifyAction where
  | remove (item_id : Option Nat)
  | update_quantity (item_id : Option Nat) (quantity : Option Int)
  | confirm_add
  | unknown
  | unrecognized (tag : String)

/-- The `for item in current_list: if item.get("id") == item_id: item["quantity"] =
new_quantity; break` loop of `main.py` lines 271-274: only the first
matching item is updated, and the new quantity is stored as given. -/
def setFirstQuantity : List Item → Option Nat → Option Int → List Item
  | [], _, _ => []
  | item :: rest, item_id, q =>
    if item.id = item_id then { item with quantity := q } :: rest
    else item :: setFirstQuantity rest item_id q

/-- Observable outcome of one `/modify_review_list` call. -/
structure ModifyResult where
  store : ReviewStore
  /-- whether `create_review_session` was invoked (re-saving refreshes the
  session's 30-minute TTL) -/
  saved : Bool
  response : Except ApiError String

/-- `main.modify_review_list`, embedded over the review store; `action` is
the classifier outcome for the free-text command. -/
def modify_review_list (store : ReviewStore) (user_id : String)
    (action : ModifyAction) : ModifyResult :=
  match get_review_session store user_id with
  | none =>
    { store := store, saved := false,
      response := .error (.notFound "No active review session found to modify.") }
  | some current_list =>
    match action with
    | .remove item_id_to_remove =>
      let updated_list := current_list.filter (fun item => item.id != item_id_to_remove)
      { store := create_review_session store user_id updated_list, saved := true,
        response := .ok "Okay, I\x27ve removed that item." }
    | .update_quantity item_id_to_update new_quantity =>
      { store := create_review_session store user_id
          (setFirstQuantity current_list item_id_to_update new_quantity),
        saved := true,
        response := .ok "Got it. I\x27ve updated the quantity." }
    | .confirm_add =>
      { store := store, saved := false, response := .ok "CONFIRM_ADD" }
    | .unknown =>
      { store := store, saved := false,
        response := .ok "I didn\x27t understand that command. Can you rephrase?" }
    | .unrecognized _ =>
      { store := store, saved := false,
        response := .ok "I\x27m not sure how to do that. Please try again." }

/-! ## Theorems -/

/-- Each order line item copies its cart entry's quantity and price, so the
quantity × price sums agree entry by entry. -/
theorem sumAmounts_rows_eq (newOrderId : Nat) (cart_items : List CartEntry) :
    sumAmounts ((cart_items.map (toOrderItemRow newOrderId)).map rowAmount)
      = sumAmounts (cart_items.map entryAmount) := by
  induction cart_items with
  | nil => rfl
  | cons e rest ih =>
    rw [List.map_map] at ih ⊢
    cases hp : e.price <;> cases hq : e.quantity <;>
      simp [rowAmount, entryAmount, toOrderItemRow, sumAmounts, hp, hq, ih,
        mul_comm, Function.comp]

/-- C1: checkout is all-or-nothing for the cart — the cart record is
cleared iff both the order insert and the line-item insert succeeded, and
when the cart is empty or the order insert fails nothing is written (no
order row, no line items) and the cart is left untouched. -/
theorem checkout_clears_cart_iff_both_inserts (user_id : String)
    (cart_items : List CartEntry) (orderInsertOk : Bool) (newOrderId : Nat)
    (itemsInsertOk : Bool) :
    ((create_order_from_cart user_id cart_items orderInsertOk newOrderId itemsInsertOk).cartCleared = true
      ↔ (create_order_from_cart user_id cart_items orderInsertOk newOrderId itemsInsertOk).orderInserted.isSome = true
        ∧ (create_order_from_cart user_id cart_items orderInsertOk newOrderId itemsInsertOk).itemsInserted.isSome = true)
    ∧ (cart_items = [] ∨ orderInsertOk = false →
        (create_order_from_cart user_id cart_items orderInsertOk newOrderId itemsInsertOk).orderInserted = none
        ∧ (create_order_from_cart user_id cart_items orderInsertOk newOrderId itemsInsertOk).itemsInserted = none
        ∧ (create_order_from_cart user_id cart_items orderInsertOk newOrderId itemsInsertOk).cartCleared = false) := by
  cases cart_items with
  | nil => simp [create_order_from_cart]
  | cons e rest =>
    cases htot : cartTotal (e :: rest) with
    | none =>
      cases orderInsertOk <;> cases itemsInsertOk <;>
        simp [create_order_from_cart, htot]
    | some t =>
      cases orderInsertOk <;> cases itemsInsertOk <;>
        simp [create_order_from_cart, htot]

/-- Witness for C1 at a concrete input: on an empty cart the inner
hypothesis holds and nothing is written. -/
theorem checkout_clears_cart_iff_both_inserts_witness :
    (create_order_from_cart "u" [] true 1 true).orderInserted = none
    ∧ (create_order_from_cart "u" [] true 1 true).itemsInserted = none
    ∧ (create_order_from_cart "u" [] true 1 true).cartCleared = false :=
  (checkout_clears_cart_iff_both_inserts "u" [] true 1 true).2 (Or.inl rfl)

/-- C2: on a successful checkout of a non-empty cart, the returned order
total is the sum of price × quantity over the cart entries read at entry,
and that same total is the sum of quantity × price-at-purchase over the
inserted line items (each line item copies its cart entry's quantity and
price). -/
theorem checkout_total_matches_cart_and_items (user_id : String)
    (cart_items : List CartEntry) (newOrderId : Nat) (t : ℚ)
    (hne : cart_items ≠ []) (htot : cartTotal cart_items = some t) :
    (create_order_from_cart user_id cart_items true newOrderId true).outcome
        = .ok (newOrderId, t)
    ∧ ∃ rows,
        (create_order_from_cart user_id cart_items true newOrderId true).itemsInserted
          = some rows
        ∧ sumAmounts (rows.map rowAmount) = some t := by
  have hne' : cart_items.isEmpty = false := by
    simpa [List.isEmpty_iff] using hne
  refine ⟨?_, ?_⟩
  · simp [create_order_from_cart, hne', htot]
  · refine ⟨cart_items.map (toOrderItemRow newOrderId), ?_, ?_⟩
    · simp [create_order_from_cart, hne', htot]
    · exact (sumAmounts_rows_eq newOrderId cart_items).trans htot

/-- Witness for C2: the spec's example cart
`[{price: 2, qty: 3}, {price: 5, qty: 1}]` totals 11 on both sides. -/
theorem checkout_total_matches_cart_and_items_witness :
    ([⟨"a", none, none, some 2, none, some 3⟩,
      ⟨"b", none, none, some 5, none, some 1⟩] : List CartEntry) ≠ []
    ∧ cartTotal [⟨"a", none, none, some 2, none, some 3⟩,
        ⟨"b", none, none, some 5, none, some 1⟩] = some 11
    ∧ ((create_order_from_cart "u"
          [⟨"a", none, none, some 2, none, some 3⟩,
           ⟨"b", none, none, some 5, none, some 1⟩] true 1 true).outcome
        = .ok (1, 11)
      ∧ ∃ rows,
          (create_order_from_cart "u"
            [⟨"a", none, none, some 2, none, some 3⟩,
             ⟨"b", none, none, some 5, none, some 1⟩] true 1 true).itemsInserted
            = some rows
          ∧ sumAmounts (rows.map rowAmount) = some 11) :=
  ⟨by decide, by simp [cartTotal, sumAmounts, entryAmount]; norm_num,
    checkout_total_matches_cart_and_items "u"
      [⟨"a", none, none, some 2, none, some 3⟩,
       ⟨"b", none, none, some 5, none, some 1⟩] 1 11 (by decide)
      (by simp [cartTotal, sumAmounts, entryAmount]; norm_num)⟩

/-- C3: with no budget, curation of a candidate pool returns exactly the
top 7 pool entries (all of them when the pool is smaller) in descending
order of similarity — missing similarity counting as 0 — as witnessed by a
split of the (stably sorted) pool into the chosen entries and a remainder
that each score no higher; every returned item is a pool entry with its
quantity set to 1 and its source untouched, and the result does not depend
on the external allocator outcome (no external call is involved). -/
theorem curation_no_budget_top_seven (products : List Item) :
    ∃ chosen rest : List Item,
      (chosen ++ rest).Perm products
      ∧ curate_cart_with_llm products none none = chosen.map setQuantityOne
      ∧ chosen.length = min 7 products.length
      ∧ List.Pairwise (fun a b => simOrZero b ≤ simOrZero a) chosen
      ∧ (∀ a ∈ chosen, ∀ b ∈ rest, simOrZero b ≤ simOrZero a)
      ∧ (∀ p ∈ curate_cart_with_llm products none none,
          p.quantity = some 1
          ∧ ∃ q ∈ products, p = setQuantityOne q ∧ p.source = q.source)
      ∧ (∀ allocOut, curate_cart_with_llm products none allocOut
          = curate_cart_with_llm products none none) := by
  have htrans : ∀ a b c : Item,
      descBySim a b = true → descBySim b c = true → descBySim a c = true := by
    intro a b c h1 h2
    simp only [descBySim, decide_eq_true_eq] at h1 h2 ⊢
    exact le_trans h2 h1
  have htotal : ∀ a b : Item, (descBySim a b || descBySim b a) = true := by
    intro a b
    simp only [descBySim, Bool.or_eq_true, decide_eq_true_eq]
    exact le_total _ _
  have hsorted' : List.Pairwise (fun a b : Item => simOrZero b ≤ simOrZero a)
      (products.mergeSort descBySim) :=
    (List.sorted_mergeSort htrans htotal products).imp
      (fun h => by simpa [descBySim] using h)
  have hperm := List.mergeSort_perm products descBySim
  by_cases hp : products = []
  · subst hp
    exact ⟨[], [], by simp, by simp [curate_cart_with_llm], by simp, by simp,
      by simp, by simp [curate_cart_with_llm], fun _ => rfl⟩
  · have hne : products.isEmpty = false := by simpa [List.isEmpty_iff] using hp
    have hval : curate_cart_with_llm products none none
        = ((products.mergeSort descBySim).take 7).map setQuantityOne := by
      simp [curate_cart_with_llm, hne]
    refine ⟨(products.mergeSort descBySim).take 7,
      (products.mergeSort descBySim).drop 7, ?_, hval, ?_, ?_, ?_, ?_, fun _ => rfl⟩
    · rw [List.take_append_drop]; exact hperm
    · simp [List.length_take, hperm.length_eq]
    · exact List.Pairwise.sublist (List.take_sublist 7 _) hsorted'
    · intro a ha b hb
      exact (List.pairwise_append.mp
        (by rw [List.take_append_drop]; exact hsorted')).2.2 a ha b hb
    · intro p hmem
      rw [hval] at hmem
      obtain ⟨q, hq, rfl⟩ := List.mem_map.mp hmem
      exact ⟨rfl, q, hperm.mem_iff.mp (List.mem_of_mem_take hq), rfl, rfl⟩

/-- `foldl` characterization of the dict lookup: a hit is either a pool
member bearing the key, or the accumulator passed in. -/
theorem product_lookup_aux (key : Option Nat) :
    ∀ (products : List Item) (acc : Option Item) (p : Item),
      products.foldl (fun acc q => if q.id = key then some q else acc) acc = some p →
      (p ∈ products ∧ p.id = key) ∨ acc = some p := by
  intro products
  induction products with
  | nil =>
    intro acc p h
    right
    simpa using h
  | cons q rest ih =>
    intro acc p h
    simp only [List.foldl_cons] at h
    rcases ih _ p h with h' | h'
    · exact Or.inl ⟨List.mem_cons_of_mem _ h'.1, h'.2⟩
    · by_cases hq : q.id = key
      · rw [if_pos hq] at h'
        cases h'
        exact Or.inl ⟨List.mem_cons_self _ _, hq⟩
      · rw [if_neg hq] at h'
        exact Or.inr h'

/-- A successful `product_lookup` returns a pool member bearing the key. -/
theorem product_lookup_mem {products : List Item} {key : Option Nat} {p : Item}
    (h : product_lookup products key = some p) : p ∈ products ∧ p.id = key := by
  rcases product_lookup_aux key products none p h with h' | h'
  · exact h'
  · exact absurd h' (by simp)

/-- The enrichment loop pairs each decision whose id is in the lookup, in
decision order, with the stored snapshot extended by the decided quantity. -/
theorem filterMap_enrich_forall2 (products : List Item) (ds : List Decision) :
    List.Forall₂
      (fun d item => ∃ p, product_lookup products d.id = some p
        ∧ item = { p with quantity := some (d.quantity.getD 1) })
      (ds.filter (fun d => (product_lookup products d.id).isSome))
      (ds.filterMap (enrichDecision products)) := by
  induction ds with
  | nil => simp
  | cons d rest ih =>
    cases hl : product_lookup products d.id with
    | none =>
      simpa [List.filter_cons, List.filterMap_cons, enrichDecision, hl] using ih
    | some p =>
      have henrich : enrichDecision products d
          = some { p with quantity := some (d.quantity.getD 1) } := by
        simp [enrichDecision, hl]
      simp only [List.filter_cons, List.filterMap_cons, henrich, hl,
        Option.isSome_some, if_true]
      exact List.Forall₂.cons ⟨p, hl, rfl⟩ ih

/-- C4: on the budget path, curation emits — in the order of the decision
sequence — one item per allocator decision whose id is found in the pool
lookup, equal to the full stored product snapshot with the decided quantity
attached; decisions with unknown ids are dropped without error, and (the
pool being deduplicated by id) every emitted item's price and name are
those of the pool entry with the same id, so nothing is fabricated. -/
theorem curation_budget_enriches_decisions (products : List Item) (b : ℚ)
    (ds : List Decision) (hids : (products.map Item.id).Nodup) :
    List.Forall₂
      (fun d item => ∃ p, product_lookup products d.id = some p
        ∧ item = { p with quantity := some (d.quantity.getD 1) })
      (ds.filter (fun d => (product_lookup products d.id).isSome))
      (curate_cart_with_llm products (some b) (some ds))
    ∧ ∀ item ∈ curate_cart_with_llm products (some b) (some ds),
        ∃ p ∈ products, item = { p with quantity := item.quantity }
          ∧ ∀ p' ∈ products, p'.id = item.id →
              p'.price = item.price ∧ p'.name = item.name := by
  by_cases hp : products = []
  · subst hp
    constructor
    · simp [curate_cart_with_llm, product_lookup]
    · simp [curate_cart_with_llm]
  · have hne : products.isEmpty = false := by simpa [List.isEmpty_iff] using hp
    have hval : curate_cart_with_llm products (some b) (some ds)
        = ds.filterMap (enrichDecision products) := by
      simp [curate_cart_with_llm, hne]
    constructor
    · rw [hval]
      exact filterMap_enrich_forall2 products ds
    · intro item hmem
      rw [hval] at hmem
      obtain ⟨d, _, he⟩ := List.mem_filterMap.mp hmem
      cases hl : product_lookup products d.id with
      | none => simp [enrichDecision, hl] at he
      | some p =>
        have he' : item = { p with quantity := some (d.quantity.getD 1) } := by
          rw [enrichDecision, hl] at he
          exact (Option.some.inj he).symm
        obtain ⟨hpmem, _⟩ := product_lookup_mem hl
        subst he'
        refine ⟨p, hpmem, rfl, ?_⟩
        intro p' hp' hid
        have hpp : p' = p := List.inj_on_of_nodup_map hids hp' hpmem hid
        subst hpp
        exact ⟨rfl, rfl⟩

/-- Witness for C4 at the spec's example: pool `{A: $5, B: $10, C: $20}`
(ids 1, 2, 3) with decisions `[{1, qty 2}, {3, qty 1}, {4, qty 1}]` — the
unknown id 4 is dropped. -/
theorem curation_budget_enriches_decisions_witness :
    (([⟨some 1, some "A", some 5, none, none, none, none⟩,
       ⟨some 2, some "B", some 10, none, none, none, none⟩,
       ⟨some 3, some "C", some 20, none, none, none, none⟩] : List Item).map Item.id).Nodup
    ∧ (List.Forall₂
        (fun d item => ∃ p, product_lookup
            [⟨some 1, some "A", some 5, none, none, none, none⟩,
             ⟨some 2, some "B", some 10, none, none, none, none⟩,
             ⟨some 3, some "C", some 20, none, none, none, none⟩] d.id = some p
          ∧ item = { p with quantity := some (d.quantity.getD 1) })
        (([⟨some 1, some 2⟩, ⟨some 3, some 1⟩, ⟨some 4, some 1⟩] : List Decision).filter
          (fun d => (product_lookup
            [⟨some 1, some "A", some 5, none, none, none, none⟩,
             ⟨some 2, some "B", some 10, none, none, none, none⟩,
             ⟨some 3, some "C", some 20, none, none, none, none⟩] d.id).isSome))
        (curate_cart_with_llm
          [⟨some 1, some "A", some 5, none, none, none, none⟩,
           ⟨some 2, some "B", some 10, none, none, none, none⟩,
           ⟨some 3, some "C", some 20, none, none, none, none⟩] (some 50)
          (some [⟨some 1, some 2⟩, ⟨some 3, some 1⟩, ⟨some 4, some 1⟩]))
      ∧ ∀ item ∈ curate_cart_with_llm
            [⟨some 1, some "A", some 5, none, none, none, none⟩,
             ⟨some 2, some "B", some 10, none, none, none, none⟩,
             ⟨some 3, some "C", some 20, none, none, none, none⟩] (some 50)
            (some [⟨some 1, some 2⟩, ⟨some 3, some 1⟩, ⟨some 4, some 1⟩]),
          ∃ p ∈ ([⟨some 1, some "A", some 5, none, none, none, none⟩,
                  ⟨some 2, some "B", some 10, none, none, none, none⟩,
                  ⟨some 3, some "C", some 20, none, none, none, none⟩] : List Item),
            item = { p with quantity := item.quantity }
            ∧ ∀ p' ∈ ([⟨some 1, some "A", some 5, none, none, none, none⟩,
                       ⟨some 2, some "B", some 10, none, none, none, none⟩,
                       ⟨some 3, some "C", some 20, none, none, none, none⟩] : List Item),
                p'.id = item.id → p'.price = item.price ∧ p'.name = item.name) :=
  ⟨by decide,
    curation_budget_enriches_decisions
      [⟨some 1, some "A", some 5, none, none, none, none⟩,
       ⟨some 2, some "B", some 10, none, none, none, none⟩,
       ⟨some 3, some "C", some 20, none, none, none, none⟩] 50
      [⟨some 1, some 2⟩, ⟨some 3, some 1⟩, ⟨some 4, some 1⟩] (by decide)⟩

/-- C5: when the external allocation call on the budget path fails or
yields no parseable decision list, the Curation Engine returns the empty
list (the embedded function is total — nothing is raised or propagated),
and the create_event caller turns that empty result into the 404 NotFound
"could not generate a list" reply — a failed curation, not a system
error. -/
theorem curation_failure_returns_empty_list (products : List Item) (b : ℚ)
    (req : QueryRequest) (plan : Plan) (histOut : HistoryOutcome)
    (search : SearchFn) (extractorOut : ExtractorOutcome)
    (hmode : req.ai_mode = some "build_cart" ∨ req.ai_mode = some "recommend")
    (hintent : plan.intent = some "create_event")
    (hthemes : plan.themes ≠ [])
    (hpool : buildThemePool search plan.themes ≠ [])
    (hbudget : plan.budget.isSome) :
    curate_cart_with_llm products (some b) none = []
    ∧ (process_user_query req (.ok plan) histOut search extractorOut none).response
        = .error (.notFound "The AI could not generate a list for that request.")
    ∧ statusCode (.notFound "The AI could not generate a list for that request.")
        = 404 := by
  have hcur : ∀ (ps : List Item) (bb : ℚ),
      curate_cart_with_llm ps (some bb) none = [] := by
    intro ps bb
    cases hh : ps.isEmpty <;> simp [curate_cart_with_llm, hh]
  obtain ⟨bb, hb⟩ := Option.isSome_iff_exists.mp hbudget
  refine ⟨hcur products b, ?_, rfl⟩
  have hth : plan.themes.isEmpty = false := by
    simpa [List.isEmpty_iff] using hthemes
  have hpl : (buildThemePool search plan.themes).isEmpty = false := by
    simpa [List.isEmpty_iff] using hpool
  rcases hmode with h | h <;>
    simp [process_user_query, h, get_ai_plan, hintent, hth, hpl, hb, hcur]

/-- Witness for C5 at a concrete input: one theme, a one-product pool, a
budget of 100, and a failed allocation call. -/
theorem curation_failure_returns_empty_list_witness :
    ((⟨"q", "u", "s", some "build_cart"⟩ : QueryRequest).ai_mode = some "build_cart"
      ∨ (⟨"q", "u", "s", some "build_cart"⟩ : QueryRequest).ai_mode = some "recommend")
    ∧ (⟨some "create_event", ["diwali"], some 100, none⟩ : Plan).intent = some "create_event"
    ∧ (⟨some "create_event", ["diwali"], some 100, none⟩ : Plan).themes ≠ []
    ∧ buildThemePool (fun _ _ _ => [⟨some 1, some "A", some 5, none, none, none, none⟩])
        (⟨some "create_event", ["diwali"], some 100, none⟩ : Plan).themes ≠ []
    ∧ (⟨some "create_event", ["diwali"], some 100, none⟩ : Plan).budget.isSome
    ∧ curate_cart_with_llm [⟨some 1, some "A", some 5, none, none, none, none⟩]
        (some 100) none = []
    ∧ (process_user_query ⟨"q", "u", "s", some "build_cart"⟩
        (.ok ⟨some "create_event", ["diwali"], some 100, none⟩) .noOrders
        (fun _ _ _ => [⟨some 1, some "A", some 5, none, none, none, none⟩])
        (.ok ⟨[], "unknown"⟩) none).response
        = .error (.notFound "The AI could not generate a list for that request.") := by
  have h := curation_failure_returns_empty_list
    [⟨some 1, some "A", some 5, none, none, none, none⟩] 100
    ⟨"q", "u", "s", some "build_cart"⟩
    ⟨some "create_event", ["diwali"], some 100, none⟩ .noOrders
    (fun _ _ _ => [⟨some 1, some "A", some 5, none, none, none, none⟩])
    (.ok ⟨[], "unknown"⟩) (Or.inl rfl) rfl (by decide)
    (by decide) rfl
  exact ⟨Or.inl rfl, rfl, by decide, by decide, rfl, h.1, h.2.1⟩

/-- C6 counterexample: `remove_item_from_temp_cart` does NOT reset the
idle-expiry window.  On a two-entry cart record whose TTL has run down to
100 seconds, removing entry "a" leaves the record with TTL still 100, not
the 1-hour (3600 s) window the claim asserts: the source issues only
`HDEL`, with no `expire` call. -/
theorem cart_remove_does_not_reset_ttl :
    (remove_item_from_temp_cart
        (some ⟨[("a", ⟨"a", none, none, none, none, none⟩),
                ("b", ⟨"b", none, none, none, none, none⟩)], 100⟩) "a").1
      = some ⟨[("b", ⟨"b", none, none, none, none, none⟩)], 100⟩
    ∧ (100 : Nat) ≠ TEMP_CART_EXPIRATION_SECONDS := by
  constructor
  · decide
  · decide

/-- C6 amended: only `add` resets the cart record's idle-expiry window to
1 hour; `remove` leaves the TTL of a surviving record exactly as it was. -/
theorem cart_ttl_reset_only_on_add (record : Option CartRecord) (item_id : String)
    (product : Item) (quantity : Int) (r r' : CartRecord) :
    (add_item_to_temp_cart record item_id product quantity).1.ttlSeconds
      = TEMP_CART_EXPIRATION_SECONDS
    ∧ ((remove_item_from_temp_cart (some r) item_id).1 = some r' →
        r'.ttlSeconds = r.ttlSeconds) := by
  constructor
  · rfl
  · intro h
    simp only [remove_item_from_temp_cart] at h
    split at h
    · simp at h
    · have h' := Option.some.inj h
      rw [← h']

/-- Witness for the amended C6 at a concrete input: an add resets the TTL
to 3600, and removing "a" from a two-entry record with TTL 100 leaves a
record whose TTL is still 100. -/
theorem cart_ttl_reset_only_on_add_witness :
    (add_item_to_temp_cart none "x"
        ⟨none, none, none, none, none, none, none⟩ 1).1.ttlSeconds
      = TEMP_CART_EXPIRATION_SECONDS
    ∧ (⟨[("b", ⟨"b", none, none, none, none, none⟩)], 100⟩ : CartRecord).ttlSeconds
      = (⟨[("a", ⟨"a", none, none, none, none, none⟩),
           ("b", ⟨"b", none, none, none, none, none⟩)], 100⟩ : CartRecord).ttlSeconds :=
  ⟨(cart_ttl_reset_only_on_add none "x" ⟨none, none, none, none, none, none, none⟩ 1
      ⟨[], 0⟩ ⟨[], 0⟩).1,
   (cart_ttl_reset_only_on_add none "a" ⟨none, none, none, none, none, none, none⟩ 1
      ⟨[("a", ⟨"a", none, none, none, none, none⟩),
        ("b", ⟨"b", none, none, none, none, none⟩)], 100⟩
      ⟨[("b", ⟨"b", none, none, none, none, none⟩)], 100⟩).2 (by decide)⟩

/-- C7 counterexample: dependency failures are NOT surfaced as an
ExternalServiceFailure-class error.  A failed planner call (swallowed by
`get_ai_plan` into `intent = "error"`) produces the very same 400
BadRequest as an un-understood request, and a failed order-history read
(swallowed by `get_last_order_for_user` into `None`) produces the very
same 404 NotFound as having no prior orders. -/
theorem dependency_failures_not_distinguished :
    (process_user_query ⟨"q", "u", "s", some "build_cart"⟩
        (.failure "Connection timed out") .noOrders (fun _ _ _ => [])
        (.ok ⟨[], "unknown"⟩) none).response
      = .error (.badRequest "The AI could not understand your request.")
    ∧ (process_user_query ⟨"q", "u", "s", some "build_cart"⟩
        (.ok ⟨some "reorder", [], none, none⟩) (.readError "db down")
        (fun _ _ _ => []) (.ok ⟨[], "unknown"⟩) none).response
      = .error (.notFound "You have no previous orders to rebuild from!")
    ∧ statusCode (.badRequest "The AI could not understand your request.") = 400
    ∧ statusCode (.badRequest "The AI could not understand your request.") ≠ 503
    ∧ statusCode (.notFound "You have no previous orders to rebuild from!") = 404
    ∧ statusCode (.notFound "You have no previous orders to rebuild from!") ≠ 503 := by
  refine ⟨rfl, rfl, rfl, by decide, rfl, by decide⟩

/-- C7 amended: only the extractor call of the add_to_cart mode surfaces a
dependency failure as an ExternalServiceFailure (HTTP 503).  A planner
failure in the AI modes is reported as the BadRequest used for
un-understood requests — indistinguishable from one — and an order-history
read failure on the reorder path is reported as the NotFound used for
"no prior orders" — indistinguishable from it. -/
theorem dependency_failure_surfacing (req : QueryRequest) (plan : Plan)
    (histOut : HistoryOutcome) (search : SearchFn)
    (extractorOut : ExtractorOutcome) (allocOut : Option (List Decision))
    (pmsg hmsg edetail : String) :
    (req.ai_mode = some "build_cart" ∨ req.ai_mode = some "recommend" →
      (process_user_query req (.failure pmsg) histOut search extractorOut allocOut).response
        = .error (.badRequest "The AI could not understand your request.")
      ∧ (process_user_query req (.failure pmsg) histOut search extractorOut allocOut).response
        = (process_user_query req (.ok ⟨some "chitchat", [], none, none⟩)
            histOut search extractorOut allocOut).response)
    ∧ (req.ai_mode = some "build_cart" ∨ req.ai_mode = some "recommend" →
        plan.intent = some "reorder" →
      (process_user_query req (.ok plan) (.readError hmsg) search extractorOut allocOut).response
        = .error (.notFound "You have no previous orders to rebuild from!")
      ∧ (process_user_query req (.ok plan) (.readError hmsg) search extractorOut allocOut).response
        = (process_user_query req (.ok plan) .noOrders search extractorOut allocOut).response)
    ∧ (req.ai_mode = some "add_to_cart" →
      (process_user_query req (.ok plan) histOut search (.httpError edetail) allocOut).response
        = .error (.externalServiceFailure edetail)
      ∧ statusCode (.externalServiceFailure edetail) = 503) := by
  refine ⟨?_, ?_, ?_⟩
  · intro hmode
    rcases hmode with h | h <;>
      exact ⟨by simp [process_user_query, h, get_ai_plan],
        by simp [process_user_query, h, get_ai_plan]⟩
  · intro hmode hintent
    rcases hmode with h | h <;>
      exact ⟨by simp [process_user_query, h, get_ai_plan, hintent,
          get_last_order_for_user],
        by simp [process_user_query, h, get_ai_plan, hintent,
          get_last_order_for_user]⟩
  · intro hmode
    exact ⟨by simp [process_user_query, hmode, extract_product_info_from_query], rfl⟩

/-- Witness for the amended C7 at concrete inputs, one per mode. -/
theorem dependency_failure_surfacing_witness :
    ((process_user_query ⟨"q", "u", "s", some "build_cart"⟩ (.failure "timeout")
        .noOrders (fun _ _ _ => []) (.ok ⟨[], "unknown"⟩) none).response
      = .error (.badRequest "The AI could not understand your request.")
    ∧ (process_user_query ⟨"q", "u", "s", some "build_cart"⟩ (.failure "timeout")
        .noOrders (fun _ _ _ => []) (.ok ⟨[], "unknown"⟩) none).response
      = (process_user_query ⟨"q", "u", "s", some "build_cart"⟩
          (.ok ⟨some "chitchat", [], none, none⟩) .noOrders (fun _ _ _ => [])
          (.ok ⟨[], "unknown"⟩) none).response)
    ∧ ((process_user_query ⟨"q", "u", "s", some "build_cart"⟩
        (.ok ⟨some "reorder", [], none, none⟩) (.readError "db down")
        (fun _ _ _ => []) (.ok ⟨[], "unknown"⟩) none).response
      = .error (.notFound "You have no previous orders to rebuild from!")
    ∧ (process_user_query ⟨"q", "u", "s", some "build_cart"⟩
        (.ok ⟨some "reorder", [], none, none⟩) (.readError "db down")
        (fun _ _ _ => []) (.ok ⟨[], "unknown"⟩) none).response
      = (process_user_query ⟨"q", "u", "s", some "build_cart"⟩
          (.ok ⟨some "reorder", [], none, none⟩) .noOrders (fun _ _ _ => [])
          (.ok ⟨[], "unknown"⟩) none).response)
    ∧ ((process_user_query ⟨"q", "u", "s", some "add_to_cart"⟩
        (.ok ⟨some "reorder", [], none, none⟩) .noOrders (fun _ _ _ => [])
        (.httpError "503 from OpenRouter") none).response
      = .error (.externalServiceFailure "503 from OpenRouter")
    ∧ statusCode (.externalServiceFailure "503 from OpenRouter") = 503) :=
  ⟨(dependency_failure_surfacing ⟨"q", "u", "s", some "build_cart"⟩
      ⟨some "reorder", [], none, none⟩ .noOrders (fun _ _ _ => [])
      (.ok ⟨[], "unknown"⟩) none "timeout" "db down" "503 from OpenRouter").1
      (Or.inl rfl),
   (dependency_failure_surfacing ⟨"q", "u", "s", some "build_cart"⟩
      ⟨some "reorder", [], none, none⟩ .noOrders (fun _ _ _ => [])
      (.ok ⟨[], "unknown"⟩) none "timeout" "db down" "503 from OpenRouter").2.1
      (Or.inl rfl) rfl,
   (dependency_failure_surfacing ⟨"q", "u", "s", some "add_to_cart"⟩
      ⟨some "reorder", [], none, none⟩ .noOrders (fun _ _ _ => [])
      (.ok ⟨[], "unknown"⟩) none "timeout" "db down" "503 from OpenRouter").2.2
      rfl⟩

/-- Review-store operations that do not target user `u` leave `u`'s
session record untouched. -/
theorem applyReviewOps_frame (u : String) :
    ∀ (ops : List ReviewOp) (store : ReviewStore),
      (∀ op ∈ ops, targetsUser u op = false) →
      applyReviewOps store ops u = store u := by
  intro ops
  induction ops with
  | nil => intro store _; rfl
  | cons op rest ih =>
    intro store hops
    have hop := hops op (List.mem_cons_self _ _)
    have hrest : ∀ o ∈ rest, targetsUser u o = false :=
      fun o ho => hops o (List.mem_cons_of_mem _ ho)
    have hstep : applyReviewOps store (op :: rest) u
        = applyReviewOps (applyReviewOp store op) rest u := rfl
    rw [hstep, ih (applyReviewOp store op) hrest]
    cases op with
    | save v its =>
      simp only [targetsUser, decide_eq_false_iff_not] at hop
      have hne : ¬(u = v) := fun h => hop h.symm
      simp [applyReviewOp, create_review_session, hne]
    | clear v =>
      simp only [targetsUser, decide_eq_false_iff_not] at hop
      have hne : ¬(u = v) := fun h => hop h.symm
      simp [applyReviewOp, clear_review_session, hne]

/-- C8: a saved review session is returned by `get` exactly as saved, and
keeps being returned unchanged across any sequence of saves/clears for
other users (i.e. until the next save or clear for this user); `get`
returns `none` when no session record exists. -/
theorem review_save_then_get (store : ReviewStore) (u : String) (items : List Item)
    (ops : List ReviewOp) (hops : ∀ op ∈ ops, targetsUser u op = false) :
    get_review_session (create_review_session store u items) u = some items
    ∧ get_review_session
        (applyReviewOps (create_review_session store u items) ops) u = some items
    ∧ (store u = none → get_review_session store u = none) := by
  refine ⟨?_, ?_, fun h => h⟩
  · simp [get_review_session, create_review_session]
  · rw [get_review_session, applyReviewOps_frame u ops _ hops]
    simp [create_review_session]

/-- Witness for C8 at a concrete input: saves/clears for other users do
not disturb the saved session. -/
theorem review_save_then_get_witness :
    targetsUser "alice" (ReviewOp.save "bob" []) = false
    ∧ targetsUser "alice" (ReviewOp.clear "carol") = false
    ∧ get_review_session
        (create_review_session (fun _ => none) "alice"
          [⟨some 1, none, none, none, some 2, none, none⟩]) "alice"
        = some [⟨some 1, none, none, none, some 2, none, none⟩]
    ∧ get_review_session
        (applyReviewOps
          (create_review_session (fun _ => none) "alice"
            [⟨some 1, none, none, none, some 2, none, none⟩])
          [ReviewOp.save "bob" [], ReviewOp.clear "carol"]) "alice"
        = some [⟨some 1, none, none, none, some 2, none, none⟩]
    ∧ get_review_session (fun _ => none) "alice" = none := by
  have h := review_save_then_get (fun _ => none) "alice"
    [⟨some 1, none, none, none, some 2, none, none⟩]
    [ReviewOp.save "bob" [], ReviewOp.clear "carol"] (by decide)
  exact ⟨by decide, by decide, h.1, h.2.1, h.2.2 rfl⟩

/-- When the session's ids are distinct, updating the first match is the
same as updating every (i.e. the unique) matching item in place. -/
theorem setFirstQuantity_eq_map_of_nodup (item_id : Option Nat) (q : Option Int) :
    ∀ L : List Item, (L.map Item.id).Nodup →
      setFirstQuantity L item_id q
        = L.map (fun it => if it.id = item_id then { it with quantity := q } else it) := by
  intro L
  induction L with
  | nil => intro _; rfl
  | cons it rest ih =>
    intro hnd
    rw [List.map_cons, List.nodup_cons] at hnd
    by_cases hid : it.id = item_id
    · simp only [setFirstQuantity, if_pos hid, List.map_cons]
      have hrest : ∀ x ∈ rest,
          (if x.id = item_id then { x with quantity := q } else x) = x := by
        intro x hx
        rw [if_neg]
        intro hxid
        exact hnd.1 (hid ▸ hxid ▸ List.mem_map_of_mem Item.id hx)
      rw [(List.map_congr_left hrest).trans (List.map_id rest)]
    · simp only [setFirstQuantity, if_neg hid, List.map_cons]
      rw [ih hnd.2]

/-- Updating the quantity of an id that does not occur is a no-op. -/
theorem setFirstQuantity_of_not_mem (item_id : Option Nat) (q : Option Int) :
    ∀ L : List Item, item_id ∉ L.map Item.id → setFirstQuantity L item_id q = L := by
  intro L
  induction L with
  | nil => intro _; rfl
  | cons it rest ih =>
    intro h
    rw [List.map_cons] at h
    have h1 : ¬(it.id = item_id) := fun e => h (e ▸ List.mem_cons_self _ _)
    have h2 : item_id ∉ rest.map Item.id := fun m => h (List.mem_cons_of_mem _ m)
    simp only [setFirstQuantity, if_neg h1]
    rw [ih h2]

/-- Filtering out an id that does not occur keeps every item. -/
theorem filter_ne_id_of_not_mem (item_id : Option Nat) (L : List Item)
    (h : item_id ∉ L.map Item.id) :
    L.filter (fun it => it.id != item_id) = L := by
  refine List.filter_eq_self.mpr ?_
  intro a ha
  rw [bne_iff_ne]
  intro e
  exact h (e ▸ List.mem_map_of_mem Item.id ha)

/-- C9: against an active session, a classified remove action replaces the
session with the previous list minus every item of the given id (order of
the rest preserved), and an update_quantity action replaces it with the
same list in which the matching item's quantity is set to the given value
as-is (non-positive or even absent values pass through unvalidated); with
distinct ids the first-match update is exactly "the matching item's
quantity replaced, all else unchanged". -/
theorem interpreter_remove_and_update (store : ReviewStore) (u : String)
    (L : List Item) (hL : get_review_session store u = some L)
    (item_id : Option Nat) (q : Option Int) :
    get_review_session (modify_review_list store u (.remove item_id)).store u
      = some (L.filter (fun it => it.id != item_id))
    ∧ get_review_session
        (modify_review_list store u (.update_quantity item_id q)).store u
      = some (setFirstQuantity L item_id q)
    ∧ ((L.map Item.id).Nodup →
        setFirstQuantity L item_id q
          = L.map (fun it => if it.id = item_id then { it with quantity := q } else it)) := by
  have hL' : store u = some L := hL
  refine ⟨?_, ?_, fun h => setFirstQuantity_eq_map_of_nodup item_id q L h⟩
  · simp [modify_review_list, hL', get_review_session, create_review_session]
  · simp [modify_review_list, hL', get_review_session, create_review_session]

/-- Witness for C9 at the spec's example session
`[{id 1, qty 2}, {id 2, qty 1}]`: removing id 2 leaves `[{id 1, qty 2}]`,
and updating id 2 to quantity 5 gives `[{id 1, qty 2}, {id 2, qty 5}]`. -/
theorem interpreter_remove_and_update_witness :
    get_review_session
      (fun v => if v = "u" then
        some [⟨some 1, none, none, none, some 2, none, none⟩,
              ⟨some 2, none, none, none, some 1, none, none⟩] else none) "u"
      = some [⟨some 1, none, none, none, some 2, none, none⟩,
              ⟨some 2, none, none, none, some 1, none, none⟩]
    ∧ get_review_session
        (modify_review_list
          (fun v => if v = "u" then
            some [⟨some 1, none, none, none, some 2, none, none⟩,
                  ⟨some 2, none, none, none, some 1, none, none⟩] else none)
          "u" (.remove (some 2))).store "u"
      = some ([⟨some 1, none, none, none, some 2, none, none⟩,
               ⟨some 2, none, none, none, some 1, none, none⟩].filter
          (fun it => it.id != some 2))
    ∧ get_review_session
        (modify_review_list
          (fun v => if v = "u" then
            some [⟨some 1, none, none, none, some 2, none, none⟩,
                  ⟨some 2, none, none, none, some 1, none, none⟩] else none)
          "u" (.update_quantity (some 2) (some 5))).store "u"
      = some (setFirstQuantity
          [⟨some 1, none, none, none, some 2, none, none⟩,
           ⟨some 2, none, none, none, some 1, none, none⟩] (some 2) (some 5))
    ∧ setFirstQuantity
        [⟨some 1, none, none, none, some 2, none, none⟩,
         ⟨some 2, none, none, none, some 1, none, none⟩] (some 2) (some 5)
      = [⟨some 1, none, none, none, some 2, none, none⟩,
         ⟨some 2, none, none, none, some 1, none, none⟩].map
          (fun it => if it.id = some 2 then { it with quantity := some 5 } else it) := by
  have h := interpreter_remove_and_update
    (fun v => if v = "u" then
      some [⟨some 1, none, none, none, some 2, none, none⟩,
            ⟨some 2, none, none, none, some 1, none, none⟩] else none) "u"
    [⟨some 1, none, none, none, some 2, none, none⟩,
     ⟨some 2, none, none, none, some 1, none, none⟩] rfl (some 2) (some 5)
  exact ⟨rfl, h.1, h.2.1, h.2.2 (by decide)⟩

/-- C10: a remove or update_quantity action whose item id does not occur in
the active session is not an error: the session contents are unchanged
(though the list is re-saved, which in the real store refreshes the
30-minute TTL — witnessed here by the `saved` flag), and the endpoint
returns exactly the success message it returns when the item exists. -/
theorem interpreter_missing_id_is_no_op (store : ReviewStore) (u : String)
    (L : List Item) (hL : get_review_session store u = some L)
    (item_id : Option Nat) (q : Option Int)
    (hmiss : item_id ∉ L.map Item.id) :
    (get_review_session (modify_review_list store u (.remove item_id)).store u = some L
      ∧ (modify_review_list store u (.remove item_id)).saved = true
      ∧ (modify_review_list store u (.remove item_id)).response
          = .ok "Okay, I\x27ve removed that item.")
    ∧ (get_review_session
          (modify_review_list store u (.update_quantity item_id q)).store u = some L
      ∧ (modify_review_list store u (.update_quantity item_id q)).saved = true
      ∧ (modify_review_list store u (.update_quantity item_id q)).response
          = .ok "Got it. I\x27ve updated the quantity.") := by
  have hL' : store u = some L := hL
  have hfil := filter_ne_id_of_not_mem item_id L hmiss
  have hset := setFirstQuantity_of_not_mem item_id q L hmiss
  refine ⟨⟨?_, ?_, ?_⟩, ⟨?_, ?_, ?_⟩⟩ <;>
    simp [modify_review_list, hL', get_review_session, create_review_session,
      hfil, hset]

/-- Witness for C10: acting on the absent id 99 leaves the two-item session
as it was and reports the usual success messages. -/
theorem interpreter_missing_id_is_no_op_witness :
    get_review_session
      (fun v => if v = "u" then
        some [⟨some 1, none, none, none, some 2, none, none⟩,
              ⟨some 2, none, none, none, some 1, none, none⟩] else none) "u"
      = some [⟨some 1, none, none, none, some 2, none, none⟩,
              ⟨some 2, none, none, none, some 1, none, none⟩]
    ∧ (some 99 ∉ ([⟨some 1, none, none, none, some 2, none, none⟩,
                   ⟨some 2, none, none, none, some 1, none, none⟩] : List Item).map Item.id)
    ∧ get_review_session
        (modify_review_list
          (fun v => if v = "u" then
            some [⟨some 1, none, none, none, some 2, none, none⟩,
                  ⟨some 2, none, none, none, some 1, none, none⟩] else none)
          "u" (.remove (some 99))).store "u"
      = some [⟨some 1, none, none, none, some 2, none, none⟩,
              ⟨some 2, none, none, none, some 1, none, none⟩]
    ∧ (modify_review_list
          (fun v => if v = "u" then
            some [⟨some 1, none, none, none, some 2, none, none⟩,
                  ⟨some 2, none, none, none, some 1, none, none⟩] else none)
          "u" (.remove (some 99))).response
      = .ok "Okay, I\x27ve removed that item."
    ∧ get_review_session
        (modify_review_list
          (fun v => if v = "u" then
            some [⟨some 1, none, none, none, some 2, none, none⟩,
                  ⟨some 2, none, none, none, some 1, none, none⟩] else none)
          "u" (.update_quantity (some 99) (some 5))).store "u"
      = some [⟨some 1, none, none, none, some 2, none, none⟩,
              ⟨some 2, none, none, none, some 1, none, none⟩]
    ∧ (modify_review_list
          (fun v => if v = "u" then
            some [⟨some 1, none, none, none, some 2, none, none⟩,
                  ⟨some 2, none, none, none, some 1, none, none⟩] else none)
          "u" (.update_quantity (some 99) (some 5))).response
      = .ok "Got it. I\x27ve updated the quantity." := by
  have h := interpreter_missing_id_is_no_op
    (fun v => if v = "u" then
      some [⟨some 1, none, none, none, some 2, none, none⟩,
            ⟨some 2, none, none, none, some 1, none, none⟩] else none) "u"
    [⟨some 1, none, none, none, some 2, none, none⟩,
     ⟨some 2, none, none, none, some 1, none, none⟩] rfl (some 99) (some 5)
    (by decide)
  exact ⟨rfl, by decide, h.1.1, h.1.2.2, h.2.1, h.2.2.2⟩
